import Mathlib

/-!
Verification of the client-side WebSocket opening handshake of
`WebSocketClient.cpp` (mWebSockets).

The embedding models the byte stream as a `List Nat` (one element per byte,
`_read()` returning -1 is the end of the list), C strings as `List Nat`
without NUL bytes, and the fixed 128-byte line buffer as an accumulator list
together with an `oob` flag that records whether `buffer[counter++]` ever
wrote at an index `≥ 128` (an out-of-bounds write on the 128-byte array).
Null-pointer dereferences (undefined behaviour) are modelled by an explicit
`crashed` outcome.
-/

/-- ASCII line feed, `'\n'`. -/
def LFb : Nat := 10

/-- ASCII carriage return, `'\r'`. -/
def CRb : Nat := 13

/-- ASCII space. -/
def SPb : Nat := 32

/-- ASCII colon. -/
def COLONb : Nat := 58

/-- ASCII horizontal tab. -/
def TABb : Nat := 9

/-- Bytes of a literal string, as used for the `F("...")` constants. -/
def s2b (s : String) : List Nat := s.toList.map Char.toNat

/-- ASCII `tolower`, as used by `strcasecmp`. -/
def toLowerByte (c : Nat) : Nat := if 65 ≤ c ∧ c ≤ 90 then c + 32 else c

/-- Equality test `strcasecmp(a, b) == 0`: byte strings equal up to ASCII case. -/
def lcEq (a b : List Nat) : Bool := a.map toLowerByte = b.map toLowerByte

/-- One `strtok_r(s, delims, &rest)` call on a fresh string `s`: skip leading
delimiters; if nothing remains, return `none` (NULL); otherwise return the
token up to the next delimiter and the rest of the string just past that
single terminating delimiter. -/
def strtokFirst (delims : List Nat) (s : List Nat) : Option (List Nat × List Nat) :=
  match s.dropWhile (fun c => delims.contains c) with
  | [] => none
  | c :: cs =>
    let tok := (c :: cs).takeWhile (fun c => !delims.contains c)
    let rest := (c :: cs).dropWhile (fun c => !delims.contains c)
    some (tok, rest.tail)

/-- The first space-delimited token of a value part, i.e. the `value`
obtained by `strtok_r(rest, " ", &rest)` (`none` = NULL). -/
def firstTokenV (v : List Nat) : Option (List Nat) :=
  (strtokFirst [SPb] v).map Prod.fst

/-- Whether the first space-delimited token of a value part exists and
case-insensitively equals `w` (the check made on `Upgrade`/`Connection`
values). -/
def firstTokenCIEq (v w : List Nat) : Bool :=
  match firstTokenV v with
  | some t => lcEq t w
  | none => false

/-- The first *whitespace*-delimited token of a value part, with whitespace
read as space or horizontal tab.  This follows the claim's phrase "first
whitespace-delimited token"; the code itself only delimits on the space
character (`strtok_r(rest, " ", &rest)`). -/
def wsFirstToken (v : List Nat) : Option (List Nat) :=
  (strtokFirst [SPb, TABb] v).map Prod.fst

/-- A byte that is none of NUL, `'\r'`, `'\n'` (the characters at which
`strcspn(buffer, "\r\n")` or the C string itself stops). -/
def goodChar (c : Nat) : Bool := c ≠ 0 && c ≠ CRb && c ≠ LFb

/-- The header line extracted from the accumulated buffer bytes:
`strcspn(buffer, "\r\n")` followed by `buffer[lineBreakPos] = '\0'` yields
the prefix before the first NUL/CR/LF byte. -/
def lineContent (acc : List Nat) : List Nat := acc.takeWhile goodChar

/-- The three handshake requirement flags (`kValidUpgradeHeader`,
`kValidConnectionHeader`, `kValidSecKey`). -/
structure HFlags where
  upgradeValid : Bool
  connectionValid : Bool
  secKeyValid : Bool
deriving DecidableEq

/-- All flags clear, the state at the start of `_readResponse`. -/
def noFlags : HFlags := ⟨false, false, false⟩

/-- The error causes used by the handshake (`WebSocketError` values that
appear in `WebSocketClient.cpp`). -/
inductive WebSocketError where
  | CONNECTION_REFUSED
  | BAD_REQUEST
  | REQUEST_TIMEOUT
  | UPGRADE_REQUIRED
deriving DecidableEq

/-- Result of processing one nonempty header line: continue with updated
flags/protocol, fail with an error (the `_TRIGGER_ERROR` + `return false`
paths), or crash (undefined behaviour: a NULL pointer is dereferenced). -/
inductive LineStep where
  | cont (flags : HFlags) (protocol : Option (List Nat))
  | fail (e : WebSocketError)
  | crash
deriving DecidableEq

/-- Header-line processing of `_readResponse` (lines 166-241): split on the
first `:` with `strtok_r`, compare the header name case-insensitively, and
check the first space-delimited token of the remainder.  A line consisting
only of colons makes `strtok_r` return NULL, which the C code then passes to
`strcasecmp` — undefined behaviour, modelled as `crash`.  In the
`Sec-WebSocket-Protocol` branch the C code calls `strlen(value)` without a
NULL check, likewise modelled as `crash` when no token is present. -/
def processHeaderLine (encode : List Nat → List Nat) (secKey : List Nat)
    (flags : HFlags) (protocol : Option (List Nat)) (line : List Nat) : LineStep :=
  match strtokFirst [COLONb] line with
  | none => LineStep.crash
  | some (header, rest) =>
    if lcEq header (s2b "Upgrade") then
      match strtokFirst [SPb] rest with
      | some (value, _) =>
        if lcEq value (s2b "websocket") then
          LineStep.cont { flags with upgradeValid := true } protocol
        else LineStep.fail WebSocketError.UPGRADE_REQUIRED
      | none => LineStep.fail WebSocketError.UPGRADE_REQUIRED
    else if lcEq header (s2b "Connection") then
      match strtokFirst [SPb] rest with
      | some (value, _) =>
        if lcEq value (s2b "Upgrade") then
          LineStep.cont { flags with connectionValid := true } protocol
        else LineStep.fail WebSocketError.UPGRADE_REQUIRED
      | none => LineStep.fail WebSocketError.UPGRADE_REQUIRED
    else if lcEq header (s2b "Sec-WebSocket-Accept") then
      let encodedKey := encode secKey
      match strtokFirst [SPb] rest with
      | some (value, _) =>
        if value = encodedKey then
          LineStep.cont { flags with secKeyValid := true } protocol
        else LineStep.fail WebSocketError.BAD_REQUEST
      | none => LineStep.fail WebSocketError.BAD_REQUEST
    else if lcEq header (s2b "Sec-WebSocket-Protocol") then
      match strtokFirst [SPb] rest with
      | some (value, _) => LineStep.cont flags (some value)
      | none => LineStep.crash
    else
      LineStep.cont flags protocol

/-- Terminal status of `_readResponse`: handshake accepted, rejected with a
cause, or undefined behaviour reached. -/
inductive HandStatus where
  | ok
  | failed (e : WebSocketError)
  | crashed
deriving DecidableEq

/-- Validation `_validateHandshake` (lines 259-280): the three flags are checked in the
fixed order Upgrade, Connection, Sec-Accept; the first missing one
determines the reported cause. -/
def validateHandshake (flags : HFlags) : HandStatus :=
  if !flags.upgradeValid then HandStatus.failed WebSocketError.UPGRADE_REQUIRED
  else if !flags.connectionValid then HandStatus.failed WebSocketError.UPGRADE_REQUIRED
  else if !flags.secKeyValid then HandStatus.failed WebSocketError.BAD_REQUEST
  else HandStatus.ok

/-- Loop state of `_readResponse`: flags, captured protocol, `currentLine`
(a `byte`, hence kept modulo 256), accumulated bytes of the current line,
and whether an out-of-bounds buffer write has occurred. -/
structure RdState where
  flags : HFlags
  protocol : Option (List Nat)
  currentLine : Nat
  acc : List Nat
  oob : Bool
deriving DecidableEq

/-- The initial state of `_readResponse`. -/
def rdInit : RdState := ⟨noFlags, none, 0, [], false⟩

/-- Outcome of `_readResponse`: terminal status, the flags and protocol at
exit, the unconsumed rest of the stream, and the out-of-bounds indicator. -/
structure RdOutcome where
  status : HandStatus
  flags : HFlags
  protocol : Option (List Nat)
  leftover : List Nat
  oob : Bool
deriving DecidableEq

/-- The `while ((bite = _read()) != -1)` loop of `_readResponse`
(lines 147-255).  Each byte is stored with `buffer[counter++] = bite`
(recorded out of bounds when the write index is `≥ 128`); on `'\n'` the line
before the first NUL/CR/LF is processed: line 0 must begin with
`HTTP/1.1 101`, a nonempty later line goes to the header checks, and an
empty later line breaks out of the loop.  When the stream is exhausted, and
after the loop, the accumulated flags go to `_validateHandshake`. -/
def readLoop (encode : List Nat → List Nat) (secKey : List Nat) :
    RdState → List Nat → RdOutcome
  | st, [] =>
    { status := validateHandshake st.flags, flags := st.flags,
      protocol := st.protocol, leftover := [], oob := st.oob }
  | st, b :: rest =>
    let oob' := st.oob || decide (st.acc.length ≥ 128)
    let acc' := st.acc ++ [b]
    if b = LFb then
      let line := lineContent acc'
      if st.currentLine = 0 then
        if (s2b "HTTP/1.1 101").isPrefixOf line then
          readLoop encode secKey
            ⟨st.flags, st.protocol, (st.currentLine + 1) % 256, [], oob'⟩ rest
        else
          { status := HandStatus.failed WebSocketError.BAD_REQUEST,
            flags := st.flags, protocol := st.protocol, leftover := rest, oob := oob' }
      else
        if line ≠ [] then
          match processHeaderLine encode secKey st.flags st.protocol line with
          | LineStep.cont f p =>
            readLoop encode secKey ⟨f, p, (st.currentLine + 1) % 256, [], oob'⟩ rest
          | LineStep.fail e =>
            { status := HandStatus.failed e, flags := st.flags,
              protocol := st.protocol, leftover := rest, oob := oob' }
          | LineStep.crash =>
            { status := HandStatus.crashed, flags := st.flags,
              protocol := st.protocol, leftover := rest, oob := oob' }
        else
          { status := validateHandshake st.flags, flags := st.flags,
            protocol := st.protocol, leftover := rest, oob := oob' }
    else
      readLoop encode secKey { st with acc := acc', oob := oob' } rest

/-- Function `_readResponse(secKey)` run on a whole byte stream.  `encode` is the
external `encodeSecKey` collaborator (SHA1 + base64), applied to the same
`secKey` the caller passes in. -/
def readResponse (encode : List Nat → List Nat) (secKey : List Nat)
    (stream : List Nat) : RdOutcome :=
  readLoop encode secKey rdInit stream

/-- The `while (!m_client.available() && attempts < maxAttempts)` loop of
`_waitForResponse` (lines 119-127), written with the remaining attempt
budget as fuel: `avail a` is whether a byte is available at the check made
after `a` delays.  At budget 0 the function returns
`attempts < maxAttempts = false` whether or not a byte is available. -/
def waitFrom (avail : Nat → Bool) : Nat → Nat → Bool
  | 0, _ => false
  | r + 1, a => if avail a then true else waitFrom avail r (a + 1)

/-- Function `_waitForResponse(maxAttempts, time)`: poll availability up to
`maxAttempts` times, return whether the loop exited with
`attempts < maxAttempts`. -/
def waitForResponse (avail : Nat → Bool) (maxAttempts : Nat) : Bool :=
  waitFrom avail maxAttempts 0

/-- Ready state of the WebSocket session (`ReadyState`). -/
inductive ReadyState where
  | CONNECTING
  | OPEN
  | CLOSING
  | CLOSED
deriving DecidableEq

/-- A notification fired by `open`: an error callback with its cause, or the
open callback. -/
inductive Ev where
  | errorEv (e : WebSocketError)
  | openEv
deriving DecidableEq

/-- Return behaviour of `open`: `true`, `false`, or no return at all because
undefined behaviour was reached inside `_readResponse`. -/
inductive OpenRet where
  | retTrue
  | retFalse
  | crashed
deriving DecidableEq

/-- Observable outcome of one `open` attempt: the returned value, the final
ready state, whether the transport is still up, and the notifications fired
(in order). -/
structure OpenOutcome where
  ret : OpenRet
  readyState : ReadyState
  connected : Bool
  events : List Ev
deriving DecidableEq

/-- Modelled from the spec: `WebSocket::terminate` is declared outside the
repository sources in scope (only its caller, the `_TRIGGER_ERROR` macro, is
under src/).  Per the spec it tears the transport down and forces the ready
state to CLOSED: "terminate the transport, set state to CLOSED" (§4.5),
"forced return to CLOSED on any failure or on explicit termination". -/
def terminateEffect : ReadyState × Bool := (ReadyState.CLOSED, false)

/-- Orchestration `WebSocketClient::open` (lines 33-61).  `connectOk` is the result of the
external `m_client.connect(host, port)`; `avail` drives `_waitForResponse`;
`stream` is the byte stream the response reader consumes; `encode`/`secKey`
are as in `readResponse`, `secKey` being the key generated and sent in the
request of this same attempt.  The entry `close(GOING_AWAY, true)` forces
any prior session closed before the attempt; the model has no prior-session
state, so only the current attempt's effects appear.  `_sendRequest` writes
onto the transport and cannot fail; its output is not consulted by the
response path, so it is not recorded here. -/
def openModel (connectOk : Bool) (avail : Nat → Bool) (maxAttempts : Nat)
    (encode : List Nat → List Nat) (secKey : List Nat)
    (stream : List Nat) : OpenOutcome :=
  if !connectOk then
    { ret := OpenRet.retFalse, readyState := terminateEffect.1,
      connected := terminateEffect.2,
      events := [Ev.errorEv WebSocketError.CONNECTION_REFUSED] }
  else
    if !waitForResponse avail maxAttempts then
      { ret := OpenRet.retFalse, readyState := terminateEffect.1,
        connected := terminateEffect.2,
        events := [Ev.errorEv WebSocketError.REQUEST_TIMEOUT] }
    else
      match (readResponse encode secKey stream).status with
      | HandStatus.failed e =>
        { ret := OpenRet.retFalse, readyState := terminateEffect.1,
          connected := terminateEffect.2, events := [Ev.errorEv e] }
      | HandStatus.crashed =>
        { ret := OpenRet.crashed, readyState := ReadyState.CONNECTING,
          connected := true, events := [] }
      | HandStatus.ok =>
        { ret := OpenRet.retTrue, readyState := ReadyState.OPEN,
          connected := true, events := [Ev.openEv] }

/-- The CRLF line terminator. -/
def crlf : List Nat := [CRb, LFb]

/-- One CRLF-terminated line on the wire. -/
def serLine (l : List Nat) : List Nat := l ++ crlf

/-- A whole response on the wire: status line, header lines, blank line,
then any body bytes. -/
def serResponse (status : List Nat) (headers : List (List Nat))
    (body : List Nat) : List Nat :=
  serLine status ++ (headers.map serLine).flatten ++ crlf ++ body

/-- A line accepted by the `Upgrade` branch: header name case-insensitively
`Upgrade` and first space-delimited token of the remainder
case-insensitively `websocket`. -/
def isValidUpgradeLine (l : List Nat) : Bool :=
  match strtokFirst [COLONb] l with
  | some (h, rest) =>
    lcEq h (s2b "Upgrade") &&
      (match firstTokenV rest with
       | some v => lcEq v (s2b "websocket")
       | none => false)
  | none => false

/-- A line accepted by the `Connection` branch. -/
def isValidConnectionLine (l : List Nat) : Bool :=
  match strtokFirst [COLONb] l with
  | some (h, rest) =>
    lcEq h (s2b "Connection") &&
      (match firstTokenV rest with
       | some v => lcEq v (s2b "Upgrade")
       | none => false)
  | none => false

/-- A line accepted by the `Sec-WebSocket-Accept` branch for expected accept
value `ek`: first token byte-for-byte equal to `ek`. -/
def isValidAcceptLine (ek : List Nat) (l : List Nat) : Bool :=
  match strtokFirst [COLONb] l with
  | some (h, rest) =>
    lcEq h (s2b "Sec-WebSocket-Accept") &&
      (match firstTokenV rest with
       | some v => v = ek
       | none => false)
  | none => false

/-- A line for `Sec-WebSocket-Protocol` — one that carries a value token (the only
shape the C code handles without dereferencing NULL). -/
def isProtoLine (l : List Nat) : Bool :=
  match strtokFirst [COLONb] l with
  | some (h, rest) =>
    lcEq h (s2b "Sec-WebSocket-Protocol") && (firstTokenV rest).isSome
  | none => false

/-- A header name recognised by one of the four dedicated branches. -/
def recognizedName (h : List Nat) : Bool :=
  lcEq h (s2b "Upgrade") || lcEq h (s2b "Connection") ||
  lcEq h (s2b "Sec-WebSocket-Accept") || lcEq h (s2b "Sec-WebSocket-Protocol")

/-- A line the parser ignores: its first colon token exists and matches none
of the recognised header names. -/
def ignorableLine (l : List Nat) : Bool :=
  match strtokFirst [COLONb] l with
  | some (h, _) => !recognizedName h
  | none => false

/-- A header line that the parser handles without failing or crashing:
nonempty, free of NUL/CR/LF, fitting the 128-byte line buffer (content of at
most 126 bytes, so content + CRLF stays within capacity), and of one of the
five accepted shapes. -/
def benignLine (ek : List Nat) (l : List Nat) : Bool :=
  !l.isEmpty && l.all goodChar && decide (l.length ≤ 126) &&
    (isValidUpgradeLine l || isValidConnectionLine l || isValidAcceptLine ek l ||
     isProtoLine l || ignorableLine l)

/-! ### Helper lemmas about the response reader -/

theorem lcEq_true_iff (a b : List Nat) :
    lcEq a b = true ↔ a.map toLowerByte = b.map toLowerByte := by
  simp [lcEq]

theorem lcEq_uniq {h : List Nat} {a b : List Nat} (ha : lcEq h a = true)
    (hb : lcEq h b = true) : lcEq a b = true := by
  rw [lcEq_true_iff] at ha hb ⊢
  rw [← ha, ← hb]

theorem goodChar_ne_LF {c : Nat} (h : goodChar c = true) : c ≠ LFb := by
  simp only [goodChar, Bool.and_eq_true, decide_eq_true_eq] at h
  exact h.2

theorem lineContent_of_good {l : List Nat} (h : l.all goodChar = true) :
    lineContent (l ++ [CRb, LFb]) = l := by
  induction l with
  | nil => decide
  | cons c cs ih =>
    simp only [List.all_cons, Bool.and_eq_true] at h
    simp only [List.cons_append, lineContent, List.takeWhile_cons, h.1]
    exact congrArg (c :: ·) (ih h.2)

/-- Bytes that are not `'\n'` are only accumulated: feeding them advances the
buffer without any line processing, and (below capacity) without any
out-of-bounds write. -/
theorem readLoop_append_noLF (encode : List Nat → List Nat) (secKey : List Nat)
    (l : List Nat) (hl : ∀ c ∈ l, c ≠ LFb) :
    ∀ (st : RdState), st.acc.length + l.length ≤ 128 → ∀ (rest : List Nat),
      readLoop encode secKey st (l ++ rest) =
        readLoop encode secKey { st with acc := st.acc ++ l } rest := by
  induction l with
  | nil => intro st _ rest; simp
  | cons c cs ih =>
    intro st hlen rest
    have hc : c ≠ LFb := hl c (List.mem_cons_self c cs)
    have hlen1 : st.acc.length + cs.length + 1 ≤ 128 := by
      simp only [List.length_cons] at hlen; omega
    have hcap : decide (st.acc.length ≥ 128) = false :=
      decide_eq_false (by omega)
    have goal2 := ih (fun x hx => hl x (List.mem_cons_of_mem _ hx))
      ⟨st.flags, st.protocol, st.currentLine, st.acc ++ [c], st.oob⟩
      (by simp only [List.length_append, List.length_cons, List.length_nil]; omega)
      rest
    simp only [List.cons_append, readLoop, hcap, Bool.or_false, if_neg hc]
    rw [show st.acc ++ c :: cs = (st.acc ++ [c]) ++ cs by simp]
    exact goal2

/-- Consuming one complete CRLF-terminated line that fits the buffer:
the status-line check at line index 0, the header checks on a nonempty later
line, and the loop break on an empty later line. -/
theorem readLoop_consume_line (encode : List Nat → List Nat) (secKey : List Nat)
    (fl : HFlags) (pr : Option (List Nat)) (cl : Nat) (oob : Bool)
    (l rest : List Nat) (hgood : l.all goodChar = true) (hlen : l.length ≤ 126) :
    readLoop encode secKey ⟨fl, pr, cl, [], oob⟩ (serLine l ++ rest) =
      if cl = 0 then
        if (s2b "HTTP/1.1 101").isPrefixOf l then
          readLoop encode secKey ⟨fl, pr, (cl + 1) % 256, [], oob⟩ rest
        else
          { status := HandStatus.failed WebSocketError.BAD_REQUEST,
            flags := fl, protocol := pr, leftover := rest, oob := oob }
      else if l = [] then
        { status := validateHandshake fl, flags := fl, protocol := pr,
          leftover := rest, oob := oob }
      else
        match processHeaderLine encode secKey fl pr l with
        | LineStep.cont f p =>
          readLoop encode secKey ⟨f, p, (cl + 1) % 256, [], oob⟩ rest
        | LineStep.fail e =>
          { status := HandStatus.failed e, flags := fl, protocol := pr,
            leftover := rest, oob := oob }
        | LineStep.crash =>
          { status := HandStatus.crashed, flags := fl, protocol := pr,
            leftover := rest, oob := oob } := by
  have hsplit : serLine l ++ rest = (l ++ [CRb]) ++ (LFb :: rest) := by
    simp [serLine, crlf]
  have hnoLF : ∀ c ∈ l ++ [CRb], c ≠ LFb := by
    intro c hc
    rcases List.mem_append.mp hc with h | h
    · exact goodChar_ne_LF (by
        have := List.all_eq_true.mp hgood c h
        exact this)
    · simp only [List.mem_singleton] at h
      subst h; decide
  rw [hsplit,
    readLoop_append_noLF encode secKey (l ++ [CRb]) hnoLF ⟨fl, pr, cl, [], oob⟩
      (by simp only [List.length_append, List.length_singleton, List.length_nil]; omega)
      (LFb :: rest)]
  have hcap : decide ((l ++ [CRb]).length ≥ 128) = false :=
    decide_eq_false (by
      simp only [List.length_append, List.length_cons, List.length_nil]
      omega)
  have hline : lineContent ((l ++ [CRb]) ++ [LFb]) = l := by
    have h2 : (l ++ [CRb]) ++ [LFb] = l ++ [CRb, LFb] := by simp
    rw [h2, lineContent_of_good hgood]
  simp only [readLoop, List.nil_append, hcap, Bool.or_false, hline]
  by_cases hcl : cl = 0
  · simp [hcl]
  · by_cases hnil : l = []
    · simp [hcl, hnil]
    · simp [hcl, hnil]

/-- The blank line (bare CRLF) at a line index other than 0 ends the loop:
the outcome is final validation of the accumulated flags and no byte past
the blank line is consumed. -/
theorem readLoop_blank (encode : List Nat → List Nat) (secKey : List Nat)
    (fl : HFlags) (pr : Option (List Nat)) (cl : Nat) (oob : Bool)
    (rest : List Nat) (hcl : cl ≠ 0) :
    readLoop encode secKey ⟨fl, pr, cl, [], oob⟩ (crlf ++ rest) =
      { status := validateHandshake fl, flags := fl, protocol := pr,
        leftover := rest, oob := oob } := by
  have := readLoop_consume_line encode secKey fl pr cl oob [] rest (by decide) (by decide)
  simp only [serLine, List.nil_append] at this
  rw [this]
  simp [hcl]

theorem lcEq_excl {h a b : List Nat} (ha : lcEq h a = true)
    (hne : lcEq a b = false) : lcEq h b = false := by
  cases hbv : lcEq h b with
  | false => rfl
  | true => rw [lcEq_uniq ha hbv] at hne; exact absurd hne (by simp)

/-- A benign header line is processed without failure or crash, and its only
effect on the flags is to set exactly the flags its shape corresponds to
(`flags |= ...` never clears a flag). -/
theorem processHeaderLine_benign (encode : List Nat → List Nat) (secKey : List Nat)
    (fl : HFlags) (pr : Option (List Nat)) (l : List Nat)
    (hb : benignLine (encode secKey) l = true) :
    ∃ pr', processHeaderLine encode secKey fl pr l =
      LineStep.cont
        { upgradeValid := fl.upgradeValid || isValidUpgradeLine l,
          connectionValid := fl.connectionValid || isValidConnectionLine l,
          secKeyValid := fl.secKeyValid || isValidAcceptLine (encode secKey) l } pr' := by
  have hb' := hb
  unfold benignLine at hb'
  simp only [Bool.and_eq_true, Bool.or_eq_true] at hb'
  have hD := hb'.2
  rcases hcolon : strtokFirst [COLONb] l with - | ⟨hd, rest⟩
  · exfalso
    rcases hD with ((((h | h) | h) | h) | h) <;>
      simp [isValidUpgradeLine, isValidConnectionLine, isValidAcceptLine,
        isProtoLine, ignorableLine, hcolon] at h
  · by_cases hU : lcEq hd (s2b "Upgrade") = true
    · have hCn : lcEq hd (s2b "Connection") = false := lcEq_excl hU (by decide)
      have hAn : lcEq hd (s2b "Sec-WebSocket-Accept") = false := lcEq_excl hU (by decide)
      have hPn : lcEq hd (s2b "Sec-WebSocket-Protocol") = false := lcEq_excl hU (by decide)
      have hvc : isValidConnectionLine l = false := by
        simp [isValidConnectionLine, hcolon, hCn]
      have hva : isValidAcceptLine (encode secKey) l = false := by
        simp [isValidAcceptLine, hcolon, hAn]
      have hVU : isValidUpgradeLine l = true := by
        rcases hD with ((((h | h) | h) | h) | h)
        · exact h
        · simp [hvc] at h
        · simp [hva] at h
        · simp [isProtoLine, hcolon, hPn] at h
        · simp [ignorableLine, hcolon, recognizedName, hU] at h
      have hVU' := hVU
      simp only [isValidUpgradeLine, hcolon] at hVU'
      rcases hsp : strtokFirst [SPb] rest with - | ⟨v, r⟩
      · simp [firstTokenV, hsp] at hVU'
      · simp [firstTokenV, hsp] at hVU'
        refine ⟨pr, ?_⟩
        simp [processHeaderLine, hcolon, hU, hsp, hVU'.2, hVU, hvc, hva]
    · have hUf : lcEq hd (s2b "Upgrade") = false := by simpa using hU
      have hvu : isValidUpgradeLine l = false := by
        simp [isValidUpgradeLine, hcolon, hUf]
      by_cases hC : lcEq hd (s2b "Connection") = true
      · have hAn : lcEq hd (s2b "Sec-WebSocket-Accept") = false := lcEq_excl hC (by decide)
        have hPn : lcEq hd (s2b "Sec-WebSocket-Protocol") = false := lcEq_excl hC (by decide)
        have hva : isValidAcceptLine (encode secKey) l = false := by
          simp [isValidAcceptLine, hcolon, hAn]
        have hVC : isValidConnectionLine l = true := by
          rcases hD with ((((h | h) | h) | h) | h)
          · simp [hvu] at h
          · exact h
          · simp [hva] at h
          · simp [isProtoLine, hcolon, hPn] at h
          · simp [ignorableLine, hcolon, recognizedName, hC] at h
        have hVC' := hVC
        simp only [isValidConnectionLine, hcolon] at hVC'
        rcases hsp : strtokFirst [SPb] rest with - | ⟨v, r⟩
        · simp [firstTokenV, hsp] at hVC'
        · simp [firstTokenV, hsp] at hVC'
          refine ⟨pr, ?_⟩
          simp [processHeaderLine, hcolon, hUf, hC, hsp, hVC'.2, hVC, hvu, hva]
      · have hCf : lcEq hd (s2b "Connection") = false := by simpa using hC
        have hvc : isValidConnectionLine l = false := by
          simp [isValidConnectionLine, hcolon, hCf]
        by_cases hA : lcEq hd (s2b "Sec-WebSocket-Accept") = true
        · have hPn : lcEq hd (s2b "Sec-WebSocket-Protocol") = false := lcEq_excl hA (by decide)
          have hVA : isValidAcceptLine (encode secKey) l = true := by
            rcases hD with ((((h | h) | h) | h) | h)
            · simp [hvu] at h
            · simp [hvc] at h
            · exact h
            · simp [isProtoLine, hcolon, hPn] at h
            · simp [ignorableLine, hcolon, recognizedName, hA] at h
          have hVA' := hVA
          simp only [isValidAcceptLine, hcolon] at hVA'
          rcases hsp : strtokFirst [SPb] rest with - | ⟨v, r⟩
          · simp [firstTokenV, hsp] at hVA'
          · simp [firstTokenV, hsp] at hVA'
            refine ⟨pr, ?_⟩
            simp [processHeaderLine, hcolon, hUf, hCf, hA, hsp, hVA'.2, hVA, hvu, hvc]
        · have hAf : lcEq hd (s2b "Sec-WebSocket-Accept") = false := by simpa using hA
          have hva : isValidAcceptLine (encode secKey) l = false := by
            simp [isValidAcceptLine, hcolon, hAf]
          by_cases hP : lcEq hd (s2b "Sec-WebSocket-Protocol") = true
          · have hVP : isProtoLine l = true := by
              rcases hD with ((((h | h) | h) | h) | h)
              · simp [hvu] at h
              · simp [hvc] at h
              · simp [hva] at h
              · exact h
              · simp [ignorableLine, hcolon, recognizedName, hP] at h
            have hVP' := hVP
            simp only [isProtoLine, hcolon] at hVP'
            rcases hsp : strtokFirst [SPb] rest with - | ⟨v, r⟩
            · simp [firstTokenV, hsp] at hVP'
            · refine ⟨some v, ?_⟩
              simp [processHeaderLine, hcolon, hUf, hCf, hAf, hP, hsp, hvu, hvc, hva]
          · have hPf : lcEq hd (s2b "Sec-WebSocket-Protocol") = false := by simpa using hP
            refine ⟨pr, ?_⟩
            simp [processHeaderLine, hcolon, hUf, hCf, hAf, hPf, hvu, hvc, hva]

/-- Folding the reader over a list of benign header lines: no failure, no
crash, and at the end each flag is set exactly when some line of the list
validly sets it (`flags |=` accumulates monotonically). -/
theorem readLoop_headers (encode : List Nat → List Nat) (secKey : List Nat)
    (headers : List (List Nat)) :
    (∀ l ∈ headers, benignLine (encode secKey) l = true) →
    ∀ (fl : HFlags) (pr : Option (List Nat)) (oob : Bool) (cl : Nat),
      cl < 256 →
      (∀ i, i < headers.length → (cl + i) % 256 ≠ 0) →
      ∀ (rest : List Nat),
      ∃ pr', readLoop encode secKey ⟨fl, pr, cl, [], oob⟩
          ((headers.map serLine).flatten ++ rest) =
        readLoop encode secKey
          ⟨⟨fl.upgradeValid || headers.any isValidUpgradeLine,
            fl.connectionValid || headers.any isValidConnectionLine,
            fl.secKeyValid || headers.any (isValidAcceptLine (encode secKey))⟩,
           pr', (cl + headers.length) % 256, [], oob⟩ rest := by
  induction headers with
  | nil =>
    intro _ fl pr oob cl hcl256 _ rest
    refine ⟨pr, ?_⟩
    simp [Nat.mod_eq_of_lt hcl256]
  | cons h t ih =>
    intro hb fl pr oob cl hcl256 hcl rest
    have hbh := hb h (List.mem_cons_self h t)
    have hbh' := hbh
    unfold benignLine at hbh'
    simp only [Bool.and_eq_true, decide_eq_true_eq] at hbh'
    obtain ⟨⟨⟨hne, hgood⟩, hlen⟩, -⟩ := hbh'
    have hclzero : cl ≠ 0 := by
      have h0 := hcl 0 (by simp)
      simpa [Nat.mod_eq_of_lt hcl256] using h0
    have hne' : h ≠ [] := by simpa using hne
    have hfl : (((h :: t).map serLine).flatten : List Nat) ++ rest
        = serLine h ++ ((t.map serLine).flatten ++ rest) := by
      simp
    obtain ⟨pr1, hstep⟩ := processHeaderLine_benign encode secKey fl pr h hbh
    rw [hfl, readLoop_consume_line encode secKey fl pr cl oob h _ hgood hlen,
      if_neg hclzero, if_neg hne']
    simp only [hstep]
    have hcl1 : ∀ i, i < t.length → ((cl + 1) % 256 + i) % 256 ≠ 0 := by
      intro i hi
      have h1 := hcl (i + 1) (by simpa using Nat.succ_lt_succ hi)
      rw [Nat.mod_add_mod]
      omega
    obtain ⟨pr2, hrec⟩ := ih (fun l hl => hb l (List.mem_cons_of_mem _ hl))
      ⟨fl.upgradeValid || isValidUpgradeLine h,
       fl.connectionValid || isValidConnectionLine h,
       fl.secKeyValid || isValidAcceptLine (encode secKey) h⟩
      pr1 oob ((cl + 1) % 256) (Nat.mod_lt _ (by omega)) hcl1 rest
    refine ⟨pr2, ?_⟩
    rw [hrec]
    have harith : ((cl + 1) % 256 + t.length) % 256 = (cl + (t.length + 1)) % 256 := by
      rw [Nat.mod_add_mod, Nat.add_assoc, Nat.add_comm 1 t.length]
    simp [List.any_cons, Bool.or_assoc, harith]

theorem takeWhile_append_all {p : Nat → Bool} {l m : List Nat}
    (h : ∀ c ∈ l, p c = true) :
    (l ++ m).takeWhile p = l ++ m.takeWhile p := by
  induction l with
  | nil => simp
  | cons a as ih =>
    have h1 := h a (List.mem_cons_self a as)
    have h2 := ih (fun c hc => h c (List.mem_cons_of_mem _ hc))
    simp [List.takeWhile_cons, h1, h2]

theorem dropWhile_append_all {p : Nat → Bool} {l m : List Nat}
    (h : ∀ c ∈ l, p c = true) :
    (l ++ m).dropWhile p = m.dropWhile p := by
  induction l with
  | nil => simp
  | cons a as ih =>
    simp only [List.cons_append, List.dropWhile_cons, h a (List.mem_cons_self a as)]
    exact ih (fun c hc => h c (List.mem_cons_of_mem _ hc))

/-- Splitting a `name ++ ":" ++ value` line with `strtok_r(_, ":", _)`:
the token is the (nonempty, colon-free) name, and the saved rest pointer is
just past the colon, i.e. the value part. -/
theorem strtokFirst_colon (name v : List Nat) (hne : name ≠ [])
    (hnc : ∀ c ∈ name, c ≠ COLONb) :
    strtokFirst [COLONb] (name ++ COLONb :: v) = some (name, v) := by
  have hpass : ∀ c ∈ name, (!([COLONb].contains c)) = true := by
    intro c hc
    simp [hnc c hc]
  unfold strtokFirst
  rcases name with - | ⟨a, as⟩
  · exact absurd rfl hne
  · have ha : ([COLONb].contains a) = false := by
      simpa using hnc a (List.mem_cons_self a as)
    rw [List.cons_append, List.dropWhile_cons]
    simp only [ha, Bool.false_eq_true, if_false]
    rw [show a :: (as ++ COLONb :: v) = (a :: as) ++ COLONb :: v from rfl,
      takeWhile_append_all hpass, dropWhile_append_all hpass]
    simp

/-- A response consisting of a good status line and then one nonempty header
line is handled exactly by `processHeaderLine` on that line, starting from
clear flags. -/
theorem readResponse_two_lines (encode : List Nat → List Nat) (secKey : List Nat)
    (l rest : List Nat) (hgood : l.all goodChar = true) (hlen : l.length ≤ 126)
    (hne : l ≠ []) :
    readResponse encode secKey (serLine (s2b "HTTP/1.1 101") ++ (serLine l ++ rest)) =
      match processHeaderLine encode secKey noFlags none l with
      | LineStep.cont f p => readLoop encode secKey ⟨f, p, 2, [], false⟩ rest
      | LineStep.fail e =>
        { status := HandStatus.failed e, flags := noFlags, protocol := none,
          leftover := rest, oob := false }
      | LineStep.crash =>
        { status := HandStatus.crashed, flags := noFlags, protocol := none,
          leftover := rest, oob := false } := by
  unfold readResponse rdInit
  rw [readLoop_consume_line encode secKey noFlags none 0 false (s2b "HTTP/1.1 101")
      _ (by decide) (by decide), if_pos rfl, if_pos (by decide)]
  rw [readLoop_consume_line encode secKey noFlags none ((0 + 1) % 256) false l rest
      hgood hlen, if_neg (by decide), if_neg hne]

theorem validateHandshake_fail_cause (fl : HFlags) (e : WebSocketError)
    (h : validateHandshake fl = HandStatus.failed e) :
    e = WebSocketError.UPGRADE_REQUIRED ∨ e = WebSocketError.BAD_REQUEST := by
  rcases fl with ⟨u, c, s⟩
  cases u <;> cases c <;> cases s <;> simp_all [validateHandshake]

theorem processHeaderLine_fail_cause {encode : List Nat → List Nat}
    {secKey : List Nat} {fl : HFlags} {pr : Option (List Nat)} {l : List Nat}
    {e : WebSocketError}
    (h : processHeaderLine encode secKey fl pr l = LineStep.fail e) :
    e = WebSocketError.UPGRADE_REQUIRED ∨ e = WebSocketError.BAD_REQUEST := by
  unfold processHeaderLine at h
  repeat' split at h
  all_goals first
    | (simp_all; done)
    | (rw [ite_eq_iff] at h
       rcases h with ⟨-, h⟩ | ⟨-, h⟩ <;> simp_all)

/-- The response reader can only fail with `UPGRADE_REQUIRED` or
`BAD_REQUEST`; the connection-level causes never originate in it. -/
theorem readLoop_fail_cause (encode : List Nat → List Nat) (secKey : List Nat) :
    ∀ (stream : List Nat) (st : RdState) (e : WebSocketError),
      (readLoop encode secKey st stream).status = HandStatus.failed e →
      e = WebSocketError.UPGRADE_REQUIRED ∨ e = WebSocketError.BAD_REQUEST := by
  intro stream
  induction stream with
  | nil =>
    intro st e h
    exact validateHandshake_fail_cause _ e h
  | cons b rest ih =>
    intro st e h
    simp only [readLoop] at h
    rcases hpl : processHeaderLine encode secKey st.flags st.protocol
        (lineContent (st.acc ++ [b])) with ⟨f, p⟩ | e' | -
    all_goals rw [hpl] at h
    all_goals dsimp only at h
    all_goals repeat' split at h
    all_goals first
      | exact ih _ e h
      | exact validateHandshake_fail_cause _ e h
      | (simp_all; done)
      | (have hc := processHeaderLine_fail_cause hpl
         simp only [HandStatus.failed.injEq] at h
         exact h ▸ hc)

/-- The polling loop of `_waitForResponse` succeeds exactly when a byte is
available at one of the first `r` availability checks. -/
theorem waitFrom_iff (avail : Nat → Bool) :
    ∀ (r a : Nat), waitFrom avail r a = true ↔ ∃ k, k < r ∧ avail (a + k) = true := by
  intro r
  induction r with
  | zero => intro a; simp [waitFrom]
  | succ n ih =>
    intro a
    by_cases h : avail a = true
    · constructor
      · intro _
        exact ⟨0, Nat.succ_pos n, by simpa using h⟩
      · intro _
        simp [waitFrom, h]
    · constructor
      · intro hw
        rw [show waitFrom avail (n + 1) a = waitFrom avail n (a + 1) from by
          simp [waitFrom, h]] at hw
        obtain ⟨k, hk, hav⟩ := (ih (a + 1)).mp hw
        exact ⟨k + 1, by omega, by rw [show a + (k + 1) = a + 1 + k from by omega]; exact hav⟩
      · intro ⟨k, hk, hav⟩
        rcases k with - | j
        · exact absurd hav (by simpa using h)
        · rw [show waitFrom avail (n + 1) a = waitFrom avail n (a + 1) from by
            simp [waitFrom, h]]
          exact (ih (a + 1)).mpr ⟨j, by omega, by rw [show a + 1 + j = a + (j + 1) from by omega]; exact hav⟩

/-! ### Claim theorems -/

/-- C1 (amended): for every server response whose status line begins with
`HTTP/1.1 101`, whose header section consists of at most 254 benign lines
(each fitting the 128-byte line buffer and being a valid `Upgrade`, a valid
`Connection`, a correct `Sec-WebSocket-Accept`, a `Sec-WebSocket-Protocol`
with a value token, or a header with an unrecognised name), and whose
headers include a valid `Upgrade: websocket`, a valid `Connection: Upgrade`
and a `Sec-WebSocket-Accept` equal to the expected accept value computed
from the sent key, `open` returns true, the ready state becomes OPEN, and
the open notification fires exactly once. -/
theorem C1_amended_open_success (avail : Nat → Bool) (maxAttempts : Nat)
    (encode : List Nat → List Nat) (secKey : List Nat)
    (status : List Nat) (headers : List (List Nat)) (body : List Nat)
    (hwait : waitForResponse avail maxAttempts = true)
    (hstat : (s2b "HTTP/1.1 101").isPrefixOf status = true)
    (hstatgood : status.all goodChar = true)
    (hstatlen : status.length ≤ 126)
    (hb : ∀ l ∈ headers, benignLine (encode secKey) l = true)
    (hcount : headers.length ≤ 254)
    (hU : headers.any isValidUpgradeLine = true)
    (hC : headers.any isValidConnectionLine = true)
    (hA : headers.any (isValidAcceptLine (encode secKey)) = true) :
    openModel true avail maxAttempts encode secKey
        (serResponse status headers body) =
      { ret := OpenRet.retTrue, readyState := ReadyState.OPEN,
        connected := true, events := [Ev.openEv] } := by
  have hrd : (readResponse encode secKey (serResponse status headers body)).status
      = HandStatus.ok := by
    unfold readResponse rdInit serResponse
    rw [List.append_assoc, List.append_assoc]
    rw [readLoop_consume_line encode secKey noFlags none 0 false status _
        hstatgood hstatlen, if_pos rfl, if_pos hstat]
    obtain ⟨pr', hrec⟩ := readLoop_headers encode secKey headers hb noFlags none false
      ((0 + 1) % 256) (by norm_num) (by intro i hi; omega) (crlf ++ body)
    rw [hrec]
    rw [readLoop_blank encode secKey _ pr' _ false body (by omega)]
    simp [noFlags, hU, hC, hA, validateHandshake]
  simp [openModel, hwait, hrd]

/-- Witness for C1: a concrete valid 101 response (with one extra ignorable
header) on which `open` succeeds. -/
theorem C1_amended_witness :
    waitForResponse (fun _ => true) 10 = true ∧
    (∀ l ∈ [s2b "Upgrade: websocket", s2b "Connection: Upgrade",
        s2b "Sec-WebSocket-Accept: KEY", s2b "X-Custom: 1"],
      benignLine ((fun _ => s2b "KEY") (s2b "nonce")) l = true) ∧
    openModel true (fun _ => true) 10 (fun _ => s2b "KEY") (s2b "nonce")
        (serResponse (s2b "HTTP/1.1 101 Switching Protocols")
          [s2b "Upgrade: websocket", s2b "Connection: Upgrade",
           s2b "Sec-WebSocket-Accept: KEY", s2b "X-Custom: 1"] (s2b "!!")) =
      { ret := OpenRet.retTrue, readyState := ReadyState.OPEN,
        connected := true, events := [Ev.openEv] } :=
  ⟨by decide, by decide,
    C1_amended_open_success (fun _ => true) 10 (fun _ => s2b "KEY") (s2b "nonce")
      (s2b "HTTP/1.1 101 Switching Protocols")
      [s2b "Upgrade: websocket", s2b "Connection: Upgrade",
       s2b "Sec-WebSocket-Accept: KEY", s2b "X-Custom: 1"] (s2b "!!")
      (by decide) (by decide) (by decide) (by decide) (by decide) (by decide)
      (by decide) (by decide) (by decide)⟩

/-- C1 (counterexample to the claim as stated): a response whose status
line begins with `HTTP/1.1 101` and whose headers *contain* a valid
`Upgrade`, a valid `Connection` and a correct `Sec-WebSocket-Accept`, yet
`open` returns false, because a later duplicate `Upgrade: h2c` header aborts
the handshake.  Containment of the three valid headers is not sufficient. -/
theorem C1_counterexample :
    ((∃ l ∈ [s2b "Upgrade: websocket", s2b "Connection: Upgrade",
        s2b "Sec-WebSocket-Accept: KEY", s2b "Upgrade: h2c"],
        isValidUpgradeLine l = true) ∧
     (∃ l ∈ [s2b "Upgrade: websocket", s2b "Connection: Upgrade",
        s2b "Sec-WebSocket-Accept: KEY", s2b "Upgrade: h2c"],
        isValidConnectionLine l = true) ∧
     (∃ l ∈ [s2b "Upgrade: websocket", s2b "Connection: Upgrade",
        s2b "Sec-WebSocket-Accept: KEY", s2b "Upgrade: h2c"],
        isValidAcceptLine (s2b "KEY") l = true) ∧
     (s2b "HTTP/1.1 101").isPrefixOf (s2b "HTTP/1.1 101 Switching Protocols") = true) ∧
    (openModel true (fun _ => true) 10 (fun _ => s2b "KEY") (s2b "nonce")
        (serResponse (s2b "HTTP/1.1 101 Switching Protocols")
          [s2b "Upgrade: websocket", s2b "Connection: Upgrade",
           s2b "Sec-WebSocket-Accept: KEY", s2b "Upgrade: h2c"] [])).ret =
      OpenRet.retFalse := by
  refine ⟨⟨?_, ?_, ?_, ?_⟩, ?_⟩ <;> decide

/-- C3: a first line that does not begin with the exact 12 characters
`HTTP/1.1 101` (the empty line included) makes the handshake fail with
`BAD_REQUEST` immediately: no later line is consumed (`leftover` is the
whole remaining stream) and no flag has been set. -/
theorem C3_bad_status_line (encode : List Nat → List Nat) (secKey : List Nat)
    (line0 rest : List Nat)
    (hbad : ¬(s2b "HTTP/1.1 101").isPrefixOf line0 = true)
    (hgood : line0.all goodChar = true) (hlen : line0.length ≤ 126) :
    readResponse encode secKey (serLine line0 ++ rest) =
      { status := HandStatus.failed WebSocketError.BAD_REQUEST,
        flags := noFlags, protocol := none, leftover := rest, oob := false } := by
  unfold readResponse rdInit
  rw [readLoop_consume_line encode secKey noFlags none 0 false line0 rest hgood hlen,
    if_pos rfl, if_neg hbad]

/-- Witness for C3: the empty first line fails with `BAD_REQUEST` before the
following (valid-looking) header line is touched. -/
theorem C3_witness :
    (¬(s2b "HTTP/1.1 101").isPrefixOf ([] : List Nat) = true) ∧
    readResponse (fun _ => s2b "KEY") (s2b "nonce")
        (serLine [] ++ s2b "Upgrade: websocket") =
      { status := HandStatus.failed WebSocketError.BAD_REQUEST,
        flags := noFlags, protocol := none,
        leftover := s2b "Upgrade: websocket", oob := false } :=
  ⟨by decide,
    C3_bad_status_line (fun _ => s2b "KEY") (s2b "nonce") [] (s2b "Upgrade: websocket")
      (by decide) (by decide) (by decide)⟩

/-- C6: final validation requires all three flags; they are checked in
the fixed order Upgrade, Connection, Sec-Accept, so the first missing one
determines the cause (`UPGRADE_REQUIRED`, `UPGRADE_REQUIRED`, `BAD_REQUEST`
respectively); and when the loop ends by stream exhaustion the outcome is
exactly this validation of the accumulated flags. -/
theorem C6_final_validation (encode : List Nat → List Nat) (secKey : List Nat)
    (st : RdState) (fl : HFlags) :
    (validateHandshake fl = HandStatus.ok ↔
      fl.upgradeValid = true ∧ fl.connectionValid = true ∧ fl.secKeyValid = true) ∧
    (fl.upgradeValid = false →
      validateHandshake fl = HandStatus.failed WebSocketError.UPGRADE_REQUIRED) ∧
    (fl.upgradeValid = true → fl.connectionValid = false →
      validateHandshake fl = HandStatus.failed WebSocketError.UPGRADE_REQUIRED) ∧
    (fl.upgradeValid = true → fl.connectionValid = true → fl.secKeyValid = false →
      validateHandshake fl = HandStatus.failed WebSocketError.BAD_REQUEST) ∧
    (readLoop encode secKey st []).status = validateHandshake st.flags := by
  refine ⟨?_, ?_, ?_, ?_, rfl⟩ <;>
    (rcases fl with ⟨u, c, s⟩; cases u <;> cases c <;> cases s <;> simp [validateHandshake])

/-- Witness for C6: concrete flag sets showing the cause order. -/
theorem C6_witness :
    validateHandshake ⟨false, true, true⟩ =
      HandStatus.failed WebSocketError.UPGRADE_REQUIRED ∧
    validateHandshake ⟨true, true, false⟩ =
      HandStatus.failed WebSocketError.BAD_REQUEST :=
  ⟨(C6_final_validation (fun _ => []) [] rdInit ⟨false, true, true⟩).2.1 rfl,
   (C6_final_validation (fun _ => []) [] rdInit ⟨true, true, false⟩).2.2.2.1 rfl rfl rfl⟩

/-- C7: the parsing loop ends exactly at a blank line (at a line index
other than 0) or at stream exhaustion.  A blank line (CRLF or bare LF)
stops the reader immediately; `leftover` is the whole rest of the stream,
showing that no further byte is consumed; the accumulated flags go to final
validation.  On stream exhaustion the accumulated flags likewise go to
final validation.  Any other complete header line that the checks accept
continues the loop. -/
theorem C7_loop_termination (encode : List Nat → List Nat) (secKey : List Nat)
    (fl : HFlags) (pr : Option (List Nat)) (cl : Nat) (oob : Bool)
    (rest : List Nat) (st : RdState) (hcl : cl ≠ 0) :
    (readLoop encode secKey ⟨fl, pr, cl, [], oob⟩ (crlf ++ rest) =
      { status := validateHandshake fl, flags := fl, protocol := pr,
        leftover := rest, oob := oob }) ∧
    (readLoop encode secKey ⟨fl, pr, cl, [], oob⟩ (LFb :: rest) =
      { status := validateHandshake fl, flags := fl, protocol := pr,
        leftover := rest, oob := oob }) ∧
    (readLoop encode secKey st [] =
      { status := validateHandshake st.flags, flags := st.flags,
        protocol := st.protocol, leftover := [], oob := st.oob }) ∧
    (∀ l f p, l.all goodChar = true → l.length ≤ 126 → l ≠ [] →
      processHeaderLine encode secKey fl pr l = LineStep.cont f p →
      readLoop encode secKey ⟨fl, pr, cl, [], oob⟩ (serLine l ++ rest) =
        readLoop encode secKey ⟨f, p, (cl + 1) % 256, [], oob⟩ rest) := by
  refine ⟨readLoop_blank encode secKey fl pr cl oob rest hcl, ?_, rfl, ?_⟩
  · have hgc : goodChar LFb = false := by decide
    simp [readLoop, lineContent, hcl, hgc, List.takeWhile_cons]
  · intro l f p hgood hlen hne hstep
    rw [readLoop_consume_line encode secKey fl pr cl oob l rest hgood hlen,
      if_neg hcl, if_neg hne, hstep]

/-- Witness for C7: a blank line at line index 3 ends parsing at once, with
the two body bytes left unconsumed. -/
theorem C7_witness :
    readLoop (fun _ => s2b "KEY") (s2b "nonce") ⟨noFlags, none, 3, [], false⟩
        (crlf ++ s2b "OK") =
      { status := validateHandshake noFlags, flags := noFlags, protocol := none,
        leftover := s2b "OK", oob := false } :=
  (C7_loop_termination (fun _ => s2b "KEY") (s2b "nonce") noFlags none 3 false
    (s2b "OK") rdInit (by decide)).1

/-- C2: whenever `open` returns false, the transport has been torn down,
the ready state has been forced to CLOSED, and exactly one error
notification has fired; and each enumerated failure kind carries its
specific cause: connection refused, timeout, and the response reader's own
cause are reported verbatim, each with `open` returning false. -/
theorem C2_failure_cleanup (connectOk : Bool) (avail : Nat → Bool)
    (maxAttempts : Nat) (encode : List Nat → List Nat) (secKey : List Nat)
    (stream : List Nat) :
    ((openModel connectOk avail maxAttempts encode secKey stream).ret = OpenRet.retFalse →
      (openModel connectOk avail maxAttempts encode secKey stream).readyState = ReadyState.CLOSED ∧
      (openModel connectOk avail maxAttempts encode secKey stream).connected = false ∧
      ∃ e, (openModel connectOk avail maxAttempts encode secKey stream).events = [Ev.errorEv e]) ∧
    (connectOk = false →
      (openModel connectOk avail maxAttempts encode secKey stream).events =
        [Ev.errorEv WebSocketError.CONNECTION_REFUSED] ∧
      (openModel connectOk avail maxAttempts encode secKey stream).ret = OpenRet.retFalse) ∧
    (connectOk = true → waitForResponse avail maxAttempts = false →
      (openModel connectOk avail maxAttempts encode secKey stream).events =
        [Ev.errorEv WebSocketError.REQUEST_TIMEOUT] ∧
      (openModel connectOk avail maxAttempts encode secKey stream).ret = OpenRet.retFalse) ∧
    (connectOk = true → waitForResponse avail maxAttempts = true →
      ∀ e, (readResponse encode secKey stream).status = HandStatus.failed e →
        (openModel connectOk avail maxAttempts encode secKey stream).events = [Ev.errorEv e] ∧
        (openModel connectOk avail maxAttempts encode secKey stream).ret = OpenRet.retFalse) := by
  by_cases hconn : connectOk = true
  · by_cases hwait : waitForResponse avail maxAttempts = true
    · rcases hst : (readResponse encode secKey stream).status with - | e' | - <;>
        refine ⟨?_, ?_, ?_, ?_⟩ <;>
        simp [openModel, terminateEffect, hconn, hwait, hst]
    · have hw : waitForResponse avail maxAttempts = false := by simpa using hwait
      refine ⟨?_, ?_, ?_, ?_⟩ <;> simp [openModel, terminateEffect, hconn, hw]
  · have hc : connectOk = false := by simpa using hconn
    refine ⟨?_, ?_, ?_, ?_⟩ <;> simp [openModel, terminateEffect, hc]

/-- Witness for C2: a refused connection yields `ret = false`, state CLOSED,
transport down, and exactly one error notification, with cause
`CONNECTION_REFUSED`. -/
theorem C2_witness :
    (openModel false (fun _ => true) 5 (fun _ => s2b "KEY") (s2b "n") []).events =
      [Ev.errorEv WebSocketError.CONNECTION_REFUSED] ∧
    (openModel false (fun _ => true) 5 (fun _ => s2b "KEY") (s2b "n") []).ret =
      OpenRet.retFalse ∧
    (openModel false (fun _ => true) 5 (fun _ => s2b "KEY") (s2b "n") []).readyState =
      ReadyState.CLOSED ∧
    (openModel false (fun _ => true) 5 (fun _ => s2b "KEY") (s2b "n") []).connected =
      false := by
  have h := C2_failure_cleanup false (fun _ => true) 5 (fun _ => s2b "KEY") (s2b "n") []
  have hretev := h.2.1 rfl
  exact ⟨hretev.1, hretev.2, (h.1 hretev.2).1, (h.1 hretev.2).2.1⟩

/-- C4: on a header line whose name case-insensitively equals
`Sec-WebSocket-Accept`, the first space-delimited token of the value part
is compared byte-for-byte with the expected accept value computed (by the
external `encodeSecKey`) from the same key the caller sent: on exact match
the SecKeyValid flag is set and parsing continues; on a missing or different
token the handshake fails with `BAD_REQUEST`. -/
theorem C4_accept_header (encode : List Nat → List Nat) (secKey : List Nat)
    (name v rest : List Nat)
    (hname : lcEq name (s2b "Sec-WebSocket-Accept") = true)
    (hne : name ≠ []) (hnc : ∀ c ∈ name, c ≠ COLONb)
    (hngood : name.all goodChar = true) (hvgood : v.all goodChar = true)
    (hlen : (name ++ COLONb :: v).length ≤ 126) :
    (firstTokenV v = some (encode secKey) →
      readResponse encode secKey
          (serLine (s2b "HTTP/1.1 101") ++ (serLine (name ++ COLONb :: v) ++ rest)) =
        readLoop encode secKey ⟨⟨false, false, true⟩, none, 2, [], false⟩ rest) ∧
    (firstTokenV v ≠ some (encode secKey) →
      readResponse encode secKey
          (serLine (s2b "HTTP/1.1 101") ++ (serLine (name ++ COLONb :: v) ++ rest)) =
        { status := HandStatus.failed WebSocketError.BAD_REQUEST,
          flags := noFlags, protocol := none, leftover := rest, oob := false }) := by
  have hUf : lcEq name (s2b "Upgrade") = false := lcEq_excl hname (by decide)
  have hCf : lcEq name (s2b "Connection") = false := lcEq_excl hname (by decide)
  have hsplit := strtokFirst_colon name v hne hnc
  have h58 : goodChar COLONb = true := by decide
  have hlgood : (name ++ COLONb :: v).all goodChar = true := by
    simp [List.all_append, List.all_cons, hngood, hvgood, h58]
  have hlne : name ++ COLONb :: v ≠ [] := by simp
  have h2 := readResponse_two_lines encode secKey (name ++ COLONb :: v) rest
    hlgood hlen hlne
  constructor
  · intro hpos
    rcases hsp : strtokFirst [SPb] v with - | ⟨tok, r⟩
    · simp [firstTokenV, hsp] at hpos
    · have htok : tok = encode secKey := by simpa [firstTokenV, hsp] using hpos
      have hpl : processHeaderLine encode secKey noFlags none (name ++ COLONb :: v) =
          LineStep.cont ⟨false, false, true⟩ none := by
        simp [processHeaderLine, hsplit, hUf, hCf, hname, hsp, htok, noFlags]
      rw [h2, hpl]
  · intro hneg
    rcases hsp : strtokFirst [SPb] v with - | ⟨tok, r⟩
    · have hpl : processHeaderLine encode secKey noFlags none (name ++ COLONb :: v) =
          LineStep.fail WebSocketError.BAD_REQUEST := by
        simp [processHeaderLine, hsplit, hUf, hCf, hname, hsp]
      rw [h2, hpl]
    · have htok : ¬tok = encode secKey := by
        intro he
        exact hneg (by simp [firstTokenV, hsp, he])
      have hpl : processHeaderLine encode secKey noFlags none (name ++ COLONb :: v) =
          LineStep.fail WebSocketError.BAD_REQUEST := by
        simp [processHeaderLine, hsplit, hUf, hCf, hname, hsp, htok]
      rw [h2, hpl]

/-- Witness for C4: a mixed-case `SEC-WEBSOCKET-ACCEPT` header whose first
token matches the expected value sets the flag and parsing continues. -/
theorem C4_witness :
    lcEq (s2b "SEC-WEBSOCKET-ACCEPT") (s2b "Sec-WebSocket-Accept") = true ∧
    firstTokenV (s2b " abc") = some ((fun _ => s2b "abc") (s2b "n")) ∧
    readResponse (fun _ => s2b "abc") (s2b "n")
        (serLine (s2b "HTTP/1.1 101") ++
         (serLine (s2b "SEC-WEBSOCKET-ACCEPT" ++ COLONb :: s2b " abc") ++ [])) =
      readLoop (fun _ => s2b "abc") (s2b "n") ⟨⟨false, false, true⟩, none, 2, [], false⟩ [] :=
  ⟨by decide, by decide,
    (C4_accept_header (fun _ => s2b "abc") (s2b "n") (s2b "SEC-WEBSOCKET-ACCEPT")
      (s2b " abc") [] (by decide) (by decide) (by decide) (by decide) (by decide)
      (by decide)).1 (by decide)⟩

/-- C5 (amended): on a header line whose name case-insensitively equals
`Upgrade` (respectively `Connection`), the first *space*-delimited token of
the value part must case-insensitively equal `websocket` (respectively
`Upgrade`); a missing or different token fails the handshake with
`UPGRADE_REQUIRED`, and on success the UpgradeValid (respectively
ConnectionValid) flag is set and parsing continues. -/
theorem C5_amended_token_check (encode : List Nat → List Nat) (secKey : List Nat)
    (name v rest : List Nat)
    (hne : name ≠ []) (hnc : ∀ c ∈ name, c ≠ COLONb)
    (hngood : name.all goodChar = true) (hvgood : v.all goodChar = true)
    (hlen : (name ++ COLONb :: v).length ≤ 126) :
    (lcEq name (s2b "Upgrade") = true →
      (firstTokenCIEq v (s2b "websocket") = true →
        readResponse encode secKey
            (serLine (s2b "HTTP/1.1 101") ++ (serLine (name ++ COLONb :: v) ++ rest)) =
          readLoop encode secKey ⟨⟨true, false, false⟩, none, 2, [], false⟩ rest) ∧
      (firstTokenCIEq v (s2b "websocket") = false →
        readResponse encode secKey
            (serLine (s2b "HTTP/1.1 101") ++ (serLine (name ++ COLONb :: v) ++ rest)) =
          { status := HandStatus.failed WebSocketError.UPGRADE_REQUIRED,
            flags := noFlags, protocol := none, leftover := rest, oob := false })) ∧
    (lcEq name (s2b "Connection") = true →
      (firstTokenCIEq v (s2b "Upgrade") = true →
        readResponse encode secKey
            (serLine (s2b "HTTP/1.1 101") ++ (serLine (name ++ COLONb :: v) ++ rest)) =
          readLoop encode secKey ⟨⟨false, true, false⟩, none, 2, [], false⟩ rest) ∧
      (firstTokenCIEq v (s2b "Upgrade") = false →
        readResponse encode secKey
            (serLine (s2b "HTTP/1.1 101") ++ (serLine (name ++ COLONb :: v) ++ rest)) =
          { status := HandStatus.failed WebSocketError.UPGRADE_REQUIRED,
            flags := noFlags, protocol := none, leftover := rest, oob := false })) := by
  have hsplit := strtokFirst_colon name v hne hnc
  have h58 : goodChar COLONb = true := by decide
  have hlgood : (name ++ COLONb :: v).all goodChar = true := by
    simp [List.all_append, List.all_cons, hngood, hvgood, h58]
  have hlne : name ++ COLONb :: v ≠ [] := by simp
  have h2 := readResponse_two_lines encode secKey (name ++ COLONb :: v) rest
    hlgood hlen hlne
  constructor
  · intro hU
    constructor
    · intro htok
      rcases hsp : strtokFirst [SPb] v with - | ⟨tok, r⟩
      · simp [firstTokenCIEq, firstTokenV, hsp] at htok
      · have hlceq : lcEq tok (s2b "websocket") = true := by
          simpa [firstTokenCIEq, firstTokenV, hsp] using htok
        have hpl : processHeaderLine encode secKey noFlags none (name ++ COLONb :: v) =
            LineStep.cont ⟨true, false, false⟩ none := by
          simp [processHeaderLine, hsplit, hU, hsp, hlceq, noFlags]
        rw [h2, hpl]
    · intro htok
      rcases hsp : strtokFirst [SPb] v with - | ⟨tok, r⟩
      · have hpl : processHeaderLine encode secKey noFlags none (name ++ COLONb :: v) =
            LineStep.fail WebSocketError.UPGRADE_REQUIRED := by
          simp [processHeaderLine, hsplit, hU, hsp]
        rw [h2, hpl]
      · have hlcf : lcEq tok (s2b "websocket") = false := by
          simpa [firstTokenCIEq, firstTokenV, hsp] using htok
        have hpl : processHeaderLine encode secKey noFlags none (name ++ COLONb :: v) =
            LineStep.fail WebSocketError.UPGRADE_REQUIRED := by
          simp [processHeaderLine, hsplit, hU, hsp, hlcf]
        rw [h2, hpl]
  · intro hC
    have hUf : lcEq name (s2b "Upgrade") = false := lcEq_excl hC (by decide)
    constructor
    · intro htok
      rcases hsp : strtokFirst [SPb] v with - | ⟨tok, r⟩
      · simp [firstTokenCIEq, firstTokenV, hsp] at htok
      · have hlceq : lcEq tok (s2b "Upgrade") = true := by
          simpa [firstTokenCIEq, firstTokenV, hsp] using htok
        have hpl : processHeaderLine encode secKey noFlags none (name ++ COLONb :: v) =
            LineStep.cont ⟨false, true, false⟩ none := by
          simp [processHeaderLine, hsplit, hUf, hC, hsp, hlceq, noFlags]
        rw [h2, hpl]
    · intro htok
      rcases hsp : strtokFirst [SPb] v with - | ⟨tok, r⟩
      · have hpl : processHeaderLine encode secKey noFlags none (name ++ COLONb :: v) =
            LineStep.fail WebSocketError.UPGRADE_REQUIRED := by
          simp [processHeaderLine, hsplit, hUf, hC, hsp]
        rw [h2, hpl]
      · have hlcf : lcEq tok (s2b "Upgrade") = false := by
          simpa [firstTokenCIEq, firstTokenV, hsp] using htok
        have hpl : processHeaderLine encode secKey noFlags none (name ++ COLONb :: v) =
            LineStep.fail WebSocketError.UPGRADE_REQUIRED := by
          simp [processHeaderLine, hsplit, hUf, hC, hsp, hlcf]
        rw [h2, hpl]

/-- Witness for C5: an uppercase `UPGRADE` header with value ` WebSocket`
passes the case-insensitive token check and sets the UpgradeValid flag. -/
theorem C5_witness :
    lcEq (s2b "UPGRADE") (s2b "Upgrade") = true ∧
    firstTokenCIEq (s2b " WebSocket") (s2b "websocket") = true ∧
    readResponse (fun _ => s2b "KEY") (s2b "n")
        (serLine (s2b "HTTP/1.1 101") ++
         (serLine (s2b "UPGRADE" ++ COLONb :: s2b " WebSocket") ++ [])) =
      readLoop (fun _ => s2b "KEY") (s2b "n") ⟨⟨true, false, false⟩, none, 2, [], false⟩ [] :=
  ⟨by decide, by decide,
    ((C5_amended_token_check (fun _ => s2b "KEY") (s2b "n") (s2b "UPGRADE")
      (s2b " WebSocket") [] (by decide) (by decide) (by decide) (by decide)
      (by decide)).1 (by decide)).1 (by decide)⟩

/-- C5 (counterexample to the claim as stated): for the header line
`Upgrade:<TAB>websocket` the first *whitespace*-delimited token of the value
is `websocket`, so by the claim the check should succeed; the code delimits
only on the space character, compares the token `<TAB>websocket`, and fails
the handshake with `UPGRADE_REQUIRED`. -/
theorem C5_counterexample :
    (match wsFirstToken (TABb :: s2b "websocket") with
     | some t => lcEq t (s2b "websocket")
     | none => false) = true ∧
    (readResponse (fun _ => s2b "KEY") (s2b "n")
        (serLine (s2b "HTTP/1.1 101") ++
         (serLine (s2b "Upgrade" ++ COLONb :: TABb :: s2b "websocket") ++ []))).status =
      HandStatus.failed WebSocketError.UPGRADE_REQUIRED := by
  constructor <;> decide

/-- C8: the wait for the first response byte succeeds exactly when a
byte becomes available at one of the `maxAttempts` polls (the final poll of
the window included), and `open` reports `REQUEST_TIMEOUT` exactly when the
wait fails; when a byte arrives in the window, response reading proceeds and
whatever `open` reports is never `REQUEST_TIMEOUT`. -/
theorem C8_timeout_window (avail : Nat → Bool) (maxAttempts : Nat)
    (encode : List Nat → List Nat) (secKey : List Nat) (stream : List Nat) :
    (waitForResponse avail maxAttempts = true ↔
      ∃ a, a < maxAttempts ∧ avail a = true) ∧
    ((openModel true avail maxAttempts encode secKey stream).events =
        [Ev.errorEv WebSocketError.REQUEST_TIMEOUT] ↔
      waitForResponse avail maxAttempts = false) := by
  constructor
  · simpa using waitFrom_iff avail maxAttempts 0
  · by_cases hwait : waitForResponse avail maxAttempts = true
    · rcases hst : (readResponse encode secKey stream).status with - | e' | -
      · simp [openModel, hwait, hst]
      · have hst' : (readLoop encode secKey rdInit stream).status =
            HandStatus.failed e' := hst
        have hc := readLoop_fail_cause encode secKey stream rdInit e' hst'
        simp only [openModel, hwait, hst]
        rcases hc with h | h <;> simp [h, hwait]
      · simp [openModel, hwait, hst]
    · have hw : waitForResponse avail maxAttempts = false := by simpa using hwait
      simp [openModel, hw]

/-- Witness for C8: with a byte first available at the third poll and a
three-attempt budget, the wait succeeds. -/
theorem C8_witness :
    waitForResponse (fun a => decide (a = 2)) 3 = true :=
  (C8_timeout_window (fun a => decide (a = 2)) 3 (fun _ => []) [] []).1.mpr
    ⟨2, by omega, by decide⟩

set_option maxRecDepth 4000 in
/-- C9 (the code at the failing input): a header line of 129 bytes of
content makes `buffer[counter++]` write at index 128 of the 128-byte
buffer — an out-of-bounds write, recorded by the model's `oob` flag — so the
outcome is not the claimed in-bounds truncate-and-continue. -/
theorem C9_overflow_oob :
    (readResponse (fun _ => s2b "KEY") (s2b "n")
        (serLine (s2b "HTTP/1.1 101") ++ (List.replicate 129 97 ++ crlf))).oob =
      true := by
  decide

/-- C10 (the code at the failing input): a `Sec-WebSocket-Protocol`
header with no value token makes `strtok_r` return NULL, which the code
passes straight to `strlen` — the run crashes instead of continuing
normally.  With a value token present, the token is captured as the
negotiated protocol with no validation, as the claim states. -/
theorem C10_protocol_crash :
    (readResponse (fun _ => s2b "KEY") (s2b "n")
        (serLine (s2b "HTTP/1.1 101") ++
         serLine (s2b "Sec-WebSocket-Protocol:"))).status = HandStatus.crashed ∧
    (readResponse (fun _ => s2b "KEY") (s2b "n")
        (serLine (s2b "HTTP/1.1 101") ++
         serLine (s2b "Sec-WebSocket-Protocol: chat"))).protocol =
      some (s2b "chat") := by
  constructor <;> decide
